import Mathlib

/-!
Verification development for the squeaky-wheel pay-to-message front end.

The development shallowly embeds the two data-access modules of the
repository, `src/utils/messageService.ts` and `src/utils/anchorClient.ts`,
and proves the frozen claims about them.

Modelling conventions:
* JavaScript strings are Lean `String`s; the handful of JS string methods
  the source uses (`startsWith` with a one-character argument, `slice`,
  `substring`, `includes`, `length`, concatenation) are given explicit
  executable definitions operating on `String.data`.
* `Number.prototype.toString(16)` / `toString(36)` on the integral values
  `Date.now()` produces are embedded as exact base conversions on `Nat`.
* SOL / lamport amounts are embedded as exact rationals; the balance
  comparison of `checkSufficientBalance` is the same inequality the source
  computes.
* The hosted database is a pure in-memory state (`DB`); each supabase
  point query or insert is the corresponding pure list operation, and a
  `.single()` query succeeds exactly when precisely one row matches.
  Remote transport failures of the database service are outside the model:
  inserts and updates succeed as state transitions.
* Non-deterministic ambient inputs (the clock, `Math.random`,
  `crypto.randomUUID`, the chain RPC outcome, the wallet balance query)
  are threaded as explicit environment parameters.
* `PublicKey.findProgramAddress` is a fixed hash-based derivation; it is
  embedded injectively, identifying a derived address with the tuple of
  byte inputs fed to the derivation (faithful up to hash collisions, which
  the chain SDK itself treats as impossible).
-/

/-! ## JavaScript string primitives -/

/-- JS string concatenation. -/
def jsAppend (a b : String) : String := ⟨a.data ++ b.data⟩

/-- JS `s.length`. -/
def jsLength (s : String) : Nat := s.data.length

/-- JS `s.startsWith(c)` for a one-character argument `c`. -/
def jsStartsWithChar (s : String) (c : Char) : Bool :=
  match s.data with
  | [] => false
  | d :: _ => d == c

/-- JS `s.slice(0, n)` (also `s.substring(0, n)`). -/
def jsSlice0 (s : String) (n : Nat) : String := ⟨s.data.take n⟩

/-- JS `s.slice(-3)`: the last three characters (the whole string when shorter). -/
def jsSliceNeg3 (s : String) : String := ⟨s.data.drop (s.data.length - 3)⟩

/-- JS `s.includes(c)` for a one-character argument `c`. -/
def jsIncludesChar (s : String) (c : Char) : Bool := s.data.contains c

/-- Decidable check that the pattern is a leading segment of the list. -/
def listLeads [DecidableEq α] : List α → List α → Bool
  | _, [] => true
  | [], _ :: _ => false
  | a :: as, b :: bs => a = b && listLeads as bs

/-- Decidable check that the pattern occurs contiguously inside the list. -/
def listHasInfix [DecidableEq α] (l pat : List α) : Bool :=
  match l with
  | [] => pat.isEmpty
  | _ :: t => listLeads l pat || listHasInfix t pat

/-- JS `s.includes(sub)` for a general substring argument. -/
def jsIncludesStr (s sub : String) : Bool := listHasInfix s.data sub.data

/-! ## JS `Number.prototype.toString(radix)` for the integral clock values -/

/-- Digit character used by JS `Number.prototype.toString(radix)`:
`0`-`9` then lowercase `a`-`z`. -/
def jsDigitChar (d : Nat) : Char :=
  if d < 10 then Char.ofNat (48 + d) else Char.ofNat (87 + d)

/-- Digit expansion of `n` in the given base, most significant digit
first.  Structural recursion on a fuel counter (any fuel above the digit
count gives the exact expansion; the callers below pass `n + 1`, which
always suffices because `n / base < n` for `n ≥ base ≥ 2`). -/
def natToBaseAux (base : Nat) : Nat → Nat → List Char
  | 0, _ => []
  | fuel + 1, n =>
    if n < base then [jsDigitChar n]
    else natToBaseAux base fuel (n / base) ++ [jsDigitChar (n % base)]

/-- JS `n.toString(16)` for a nonnegative integer `n`. -/
def natToHexStr (n : Nat) : String := ⟨natToBaseAux 16 (n + 1) n⟩

/-- JS `n.toString(36)` for a nonnegative integer `n`. -/
def natToB36Str (n : Nat) : String := ⟨natToBaseAux 36 (n + 1) n⟩

/-! ## Data model: the mirrored database (messageService.ts) -/

/-- Message status as persisted in the `messages` table. -/
inductive MessageStatus where
  | pending
  | approved
  | rejected
deriving DecidableEq, Repr

/-- Row of the `profiles` table. -/
structure ProfileRow where
  id : String
  wallet_address : String
  username : String
  avatar_url : Option String
deriving DecidableEq, Repr

/-- Row of the `messages` table. -/
structure MessageRow where
  id : String
  sender_id : String
  recipient_id : String
  amount : ℚ
  created_at : Nat
  message_id : String
  content : String
  status : MessageStatus
  transaction_signature : Option String
  updated_at : Nat
deriving DecidableEq, Repr

/-- The mirrored database state. -/
structure DB where
  profiles : List ProfileRow
  messages : List MessageRow
deriving DecidableEq, Repr

/-- Supabase `.single()`: succeeds exactly when precisely one row matched. -/
def single? (l : List α) : Option α :=
  match l with
  | [a] => some a
  | _ => none

/-! ## messageService.ts operations -/

/-- Result shape of `fetchMessages` (the `MessageData` interface of the source). -/
structure MessageData where
  id : String
  sender_id : String
  recipient_id : String
  amount : ℚ
  created_at : Nat
  message_id : String
  content : String
  status : MessageStatus
  transaction_signature : Option String
  senderUsername : String
  senderDisplayName : String
  senderAvatarUrl : String
  recipientUsername : String
deriving DecidableEq, Repr

/-- The `type` argument of `fetchMessages`. -/
inductive FetchType where
  | received
  | sent
  | all
deriving DecidableEq, Repr

/-- Profile lookup by database id, as used for the profiles map of
`fetchMessages` (the `.in` query restricted to the ids actually looked up). -/
def findProfileById (db : DB) (pid : String) : Option ProfileRow :=
  db.profiles.find? (fun p => p.id == pid)

/-- Formatting step of `fetchMessages`: joins a message row with the
usernames and avatar of its sender and recipient profiles. -/
def formatMessage (db : DB) (m : MessageRow) : MessageData :=
  let sender := findProfileById db m.sender_id
  let recipient := findProfileById db m.recipient_id
  { id := m.id
    sender_id := m.sender_id
    recipient_id := m.recipient_id
    amount := m.amount
    created_at := m.created_at
    message_id := m.message_id
    content := m.content
    status := m.status
    transaction_signature := m.transaction_signature
    senderUsername := (sender.map (·.username)).getD "Unknown User"
    senderDisplayName := (sender.map (·.username)).getD "Unknown User"
    senderAvatarUrl := (sender.bind (·.avatar_url)).getD ""
    recipientUsername := (recipient.map (·.username)).getD "Unknown User" }

/-- Messages matched by the `type`-dependent query of `fetchMessages`. -/
def matchedMessages (db : DB) (profileId : String) (ftype : FetchType) : List MessageRow :=
  match ftype with
  | .received => db.messages.filter (fun m => m.recipient_id == profileId)
  | .sent => db.messages.filter (fun m => m.sender_id == profileId)
  | .all =>
      db.messages.filter (fun m => m.sender_id == profileId || m.recipient_id == profileId)

/-- Comparator of the final sort of `fetchMessages`: newest first, i.e.
descending `created_at`. -/
def newestFirst (a b : MessageData) : Prop := b.created_at ≤ a.created_at

instance : DecidableRel newestFirst :=
  fun a b => inferInstanceAs (Decidable (b.created_at ≤ a.created_at))

instance : IsTotal MessageData newestFirst :=
  ⟨fun a b => Nat.le_total b.created_at a.created_at⟩

instance : IsTrans MessageData newestFirst :=
  ⟨fun _ _ _ hab hbc => Nat.le_trans hbc hab⟩

/-- Embedding of `fetchMessages`.  `newProfileId` is the
`crypto.randomUUID()` value drawn when a profile has to be created. -/
def fetchMessages (db : DB) (walletAddress : Option String) (ftype : FetchType)
    (newProfileId : String) : List MessageData × DB :=
  match walletAddress with
  | none => ([], db)
  | some w =>
    match single? (db.profiles.filter (fun p => p.wallet_address == w)) with
    | none =>
      let newProfile : ProfileRow :=
        { id := newProfileId
          wallet_address := w
          username := jsAppend "user_" (jsSlice0 w 8)
          avatar_url := none }
      ([], { db with profiles := db.profiles ++ [newProfile] })
    | some prof =>
      let formatted := (matchedMessages db prof.id ftype).map (formatMessage db)
      (List.insertionSort newestFirst formatted, db)

/-- Ambient inputs of one `saveMessage` call: the clock value used when a
malformed id is regenerated, the `crypto.randomUUID()` draws for profiles
that have to be created, and the database-assigned id and timestamp of the
inserted message row. -/
structure SaveEnv where
  saveNow : Nat
  senderProfileId : String
  recipientProfileId : String
  msgRowId : String
  createdAt : Nat

/-- Get-or-create profile step of `saveMessage`: a `.single()` lookup by
wallet address, inserting a fresh profile when it fails. -/
def getOrCreateProfile (db : DB) (walletAddress newProfileId : String) : String × DB :=
  match single? (db.profiles.filter (fun p => p.wallet_address == walletAddress)) with
  | some p => (p.id, db)
  | none =>
    (newProfileId,
      { db with profiles := db.profiles ++
          [{ id := newProfileId
             wallet_address := walletAddress
             username := jsAppend "user_" (jsSlice0 walletAddress 8)
             avatar_url := none }] })

/-- Embedding of `saveMessage`.  A malformed `messageId` (empty, not
starting with 'm', or shorter than 4) is silently replaced by
`m + Date.now().toString(36).slice(-3)` before the row is inserted. -/
def saveMessage (env : SaveEnv) (db : DB)
    (senderWalletAddress recipientWalletAddress messageId content : String)
    (amount : ℚ) (transactionSignature : Option String) : Bool × DB :=
  let validMessageId :=
    if messageId.data.isEmpty || !jsStartsWithChar messageId 'm'
        || decide (jsLength messageId < 4) then
      jsAppend "m" (jsSliceNeg3 (natToB36Str env.saveNow))
    else messageId
  let sres := getOrCreateProfile db senderWalletAddress env.senderProfileId
  let rres := getOrCreateProfile sres.2 recipientWalletAddress env.recipientProfileId
  let row : MessageRow :=
    { id := env.msgRowId
      sender_id := sres.1
      recipient_id := rres.1
      amount := amount
      created_at := env.createdAt
      message_id := validMessageId
      content := content
      status := .pending
      transaction_signature := transactionSignature
      updated_at := env.createdAt }
  (true, { rres.2 with messages := rres.2.messages ++ [row] })

/-- Row update applied by `updateMessageStatus`: the status is overwritten,
the transaction signature only when one was supplied, and `updated_at` is
refreshed. -/
def applyStatus (m : MessageRow) (status : MessageStatus)
    (transactionSignature : Option String) (now : Nat) : MessageRow :=
  { m with
      status := status
      transaction_signature :=
        match transactionSignature with
        | some s => some s
        | none => m.transaction_signature
      updated_at := now }

/-- Outcome of one `updateMessageStatus` call: the returned boolean, the
database afterwards, and whether the lookup-by-database-id fallback ran. -/
structure UpdateOutcome where
  ok : Bool
  db : DB
  fallbackTried : Bool
deriving DecidableEq, Repr

/-- Embedding of `updateMessageStatus`: format gate, primary `.single()`
lookup by `message_id`, and the dash-sniffing fallback lookup by database
id. -/
def updateMessageStatus (db : DB) (messageId : String) (status : MessageStatus)
    (transactionSignature : Option String) (now : Nat) : UpdateOutcome :=
  if !jsStartsWithChar messageId 'm' || decide (jsLength messageId < 4) then
    ⟨false, db, false⟩
  else
    match single? (db.messages.filter (fun m => m.message_id == messageId)) with
    | some _ =>
      ⟨true,
        { db with messages := db.messages.map (fun m =>
            if m.message_id == messageId then
              applyStatus m status transactionSignature now
            else m) },
        false⟩
    | none =>
      if jsIncludesChar messageId '-' then
        match single? (db.messages.filter (fun m => m.id == messageId)) with
        | none => ⟨false, db, true⟩
        | some mById =>
          ⟨true,
            { db with messages := db.messages.map (fun m =>
                if m.id == mById.id then
                  applyStatus m status transactionSignature now
                else m) },
            true⟩
      else ⟨false, db, false⟩

/-! ## anchorClient.ts: escrow address derivation and payment driver -/

/-- Program id constant of anchorClient.ts. -/
def PROGRAM_ID : String := "GPS2swU3p4XGWisAh3n4QWQuMvrQdfnz2eSwME2dp66A"

/-- One lamport-per-SOL scale factor, as an exact rational. -/
def LAMPORTS_PER_SOL : ℚ := 1000000000

/-- Fee-and-rent buffer of `checkSufficientBalance`: 0.01 SOL in lamports. -/
def estimatedFee : ℚ := (1 / 100) * LAMPORTS_PER_SOL

/-- Derived program address, identified with the tuple of derivation
inputs that `PublicKey.findProgramAddress` hashes: the domain tag, the
sender and recipient key bytes, the seed string, and the program id.
Distinct input tuples give distinct addresses (faithful up to hash
collisions). -/
structure PDAInput where
  tag : String
  sender : String
  recipient : String
  seed : String
  programId : String
deriving DecidableEq, Repr

/-- Embedding of `deriveMessageEscrowPDA`. -/
def deriveMessageEscrowPDA (sender recipient messageId : String) : PDAInput :=
  { tag := "message-escrow"
    sender := sender
    recipient := recipient
    seed := messageId
    programId := PROGRAM_ID }

/-- Embedding of `checkSufficientBalance`.  `balanceResult` is the outcome
of the remote `connection.getBalance` call (lamports on success); a throw
is caught and reported as `false`. -/
def checkSufficientBalance (balanceResult : Except String ℚ) (requiredAmount : ℚ) : Bool :=
  match balanceResult with
  | .ok walletBalance =>
      decide (requiredAmount * LAMPORTS_PER_SOL + estimatedFee ≤ walletBalance)
  | .error _ => false

/-- Error message of the insufficient-funds failure path. -/
def insufficientFundsMsg : String :=
  "Insufficient funds. Please add more SOL to your wallet to complete this transaction."

/-- Error message of the wallet-rejection failure path. -/
def userRejectedMsg : String := "Transaction was rejected by the wallet."

/-- On-chain instruction submitted through `program.methods….rpc()`. -/
inductive ChainInstruction where
  | create (sender recipient : String) (escrow : PDAInput) (lamports : ℚ) (seed : String)
  | approve (sender recipient : String) (escrow : PDAInput)
  | reject (sender recipient : String) (escrow : PDAInput)
deriving DecidableEq, Repr

/-- Ambient inputs of one `createMessagePayment` call: the balance query
outcome, the `Date.now()` and `Math.random()` draws of the id generation,
the chain RPC outcome, and the `saveMessage` environment. -/
structure CreateEnv where
  balanceResult : Except String ℚ
  now : Nat
  rand : String
  rpcResult : Except String String
  saveEnv : SaveEnv

/-- Outcome of one `createMessagePayment` call: the returned value or
thrown error, the instructions handed to `.rpc()`, and the database
afterwards. -/
structure CreateOutcome where
  result : Except String String
  submitted : List ChainInstruction
  db : DB
deriving Repr

/-- Embedding of `createMessagePayment`: balance gate, id generation
`Date.now().toString(16) + '-' + random`, seed truncation to 4 characters,
PDA derivation, chain submission, and the mirroring `saveMessage` call.
The catch block reclassifies error messages exactly as the source does. -/
def createMessagePayment (env : CreateEnv) (db : DB)
    (walletPublicKey recipientAddress : String) (amount : ℚ)
    (messageContent : String) : CreateOutcome :=
  if !checkSufficientBalance env.balanceResult amount then
    ⟨.error insufficientFundsMsg, [], db⟩
  else
    let messageId := jsAppend (natToHexStr env.now) (jsAppend "-" env.rand)
    let shortMessageId := jsSlice0 messageId 4
    let lamports := amount * LAMPORTS_PER_SOL
    let escrowPDA := deriveMessageEscrowPDA walletPublicKey recipientAddress shortMessageId
    let instr := ChainInstruction.create walletPublicKey recipientAddress escrowPDA
        lamports shortMessageId
    match env.rpcResult with
    | .error e =>
      if jsIncludesStr e "insufficient funds"
          || jsIncludesStr e "attempt to debit an account"
          || jsIncludesStr e "Insufficient funds" then
        ⟨.error insufficientFundsMsg, [instr], db⟩
      else if jsIncludesStr e "User rejected" then
        ⟨.error userRejectedMsg, [instr], db⟩
      else ⟨.error e, [instr], db⟩
    | .ok tx =>
      let sres := saveMessage env.saveEnv db walletPublicKey recipientAddress messageId
          messageContent amount (some tx)
      ⟨.ok tx, [instr], sres.2⟩

/-- Ambient inputs of one approval / rejection call. -/
structure ApproveEnv where
  rpcResult : Except String String
  updateNow : Nat

/-- Outcome of one approval / rejection call. -/
structure ApproveOutcome where
  result : Except String String
  submitted : List ChainInstruction
  db : DB
deriving Repr

/-- Embedding of `approveMessagePayment`: truncates the supplied message id
to 4 characters, re-derives the escrow address from the stored
(sender, recipient) pairing, submits the approval instruction, and on
success mirrors the status change through `updateMessageStatus`. -/
def approveMessagePayment (env : ApproveEnv) (db : DB)
    (walletPublicKey senderAddress messageId : String) : ApproveOutcome :=
  let shortMessageId := jsSlice0 messageId 4
  let escrowPDA := deriveMessageEscrowPDA senderAddress walletPublicKey shortMessageId
  let instr := ChainInstruction.approve senderAddress walletPublicKey escrowPDA
  match env.rpcResult with
  | .error e => ⟨.error e, [instr], db⟩
  | .ok tx =>
    let out := updateMessageStatus db messageId .approved (some tx) env.updateNow
    ⟨.ok tx, [instr], out.db⟩

/-- Embedding of `rejectMessagePayment`, identical to the approval flow
except for the instruction and the mirrored status. -/
def rejectMessagePayment (env : ApproveEnv) (db : DB)
    (walletPublicKey senderAddress messageId : String) : ApproveOutcome :=
  let shortMessageId := jsSlice0 messageId 4
  let escrowPDA := deriveMessageEscrowPDA senderAddress walletPublicKey shortMessageId
  let instr := ChainInstruction.reject senderAddress walletPublicKey escrowPDA
  match env.rpcResult with
  | .error e => ⟨.error e, [instr], db⟩
  | .ok tx =>
    let out := updateMessageStatus db messageId .rejected (some tx) env.updateNow
    ⟨.ok tx, [instr], out.db⟩

/-- Character class of a standard (lowercase) UUID string: hex digits and
the dash separator.  Used to state claims about database-id-shaped
identifiers. -/
def isUuidChar (c : Char) : Bool :=
  ('0' ≤ c && c ≤ '9') || ('a' ≤ c && c ≤ 'f') || c == '-'

/-! ## Helper lemmas -/

example : natToHexStr 4096 = "1000" := by decide
example : natToB36Str 46656 = "1000" := by decide
example : natToHexStr 1747000000000 = "196c1507e00" := by decide
example : natToB36Str 1747000000000 = "mak6oz5s" := by decide

theorem jsDigitChar_ne_m {d : Nat} (h : d < 16) : jsDigitChar d ≠ 'm' := by
  interval_cases d <;> decide

/-- One-step unfolding of `natToBaseAux` at positive fuel. -/
theorem natToBaseAux_succ (base fuel n : Nat) :
    natToBaseAux base (fuel + 1) n =
      if n < base then [jsDigitChar n]
      else natToBaseAux base fuel (n / base) ++ [jsDigitChar (n % base)] := rfl

/-- With sufficient fuel the base-16 expansion is nonempty and its leading
character is a hex digit, hence never the letter m. -/
theorem natToBaseAux16_head :
    ∀ fuel n : Nat, n ≤ fuel →
      ∃ c l, natToBaseAux 16 (fuel + 1) n = c :: l ∧ c ≠ 'm' := by
  intro fuel
  induction fuel with
  | zero =>
    intro n hn
    have hn0 : n = 0 := Nat.le_zero.mp hn
    subst hn0
    exact ⟨'0', [], by decide, by decide⟩
  | succ f ihf =>
    intro n hn
    by_cases h16 : n < 16
    · refine ⟨jsDigitChar n, [], ?_, jsDigitChar_ne_m h16⟩
      rw [natToBaseAux_succ]
      simp [h16]
    · have hdiv : n / 16 ≤ f := by
        have hlt : n / 16 < n := Nat.div_lt_self (by omega) (by omega)
        omega
      obtain ⟨c, l, hcl, hc⟩ := ihf (n / 16) hdiv
      refine ⟨c, l ++ [jsDigitChar (n % 16)], ?_, hc⟩
      rw [natToBaseAux_succ]
      simp only [h16, if_false]
      rw [hcl]
      rfl

/-- The expansion at positive fuel is never empty. -/
theorem natToBaseAux_succ_ne_nil (base fuel n : Nat) :
    natToBaseAux base (fuel + 1) n ≠ [] := by
  rw [natToBaseAux_succ]
  split <;> simp

/-- With sufficient fuel, numbers of at least three base-36 digits expand
to at least three characters. -/
theorem natToBaseAux36_three_le :
    ∀ fuel n : Nat, n ≤ fuel → 1296 ≤ n →
      3 ≤ (natToBaseAux 36 (fuel + 1) n).length := by
  intro fuel n hfuel hn
  obtain ⟨f, rfl⟩ : ∃ f, fuel = f + 1 := ⟨fuel - 1, by omega⟩
  obtain ⟨g, rfl⟩ : ∃ g, f = g + 1 := ⟨f - 1, by omega⟩
  have h1 : ¬ n < 36 := by omega
  have h2 : ¬ n / 36 < 36 := by
    have h3 : 1296 / 36 ≤ n / 36 := Nat.div_le_div_right hn
    norm_num at h3
    omega
  rw [natToBaseAux_succ]
  simp only [h1, if_false]
  rw [natToBaseAux_succ]
  simp only [h2, if_false]
  have h4 : 0 < (natToBaseAux 36 (g + 1) (n / 36 / 36)).length :=
    List.length_pos.mpr (natToBaseAux_succ_ne_nil 36 g (n / 36 / 36))
  simp only [List.length_append, List.length_cons, List.length_nil]
  omega

/-- The leading character of `natToHexStr` is a hex digit, never m. -/
theorem natToHexStr_head (n : Nat) :
    ∃ c l, (natToHexStr n).data = c :: l ∧ c ≠ 'm' :=
  natToBaseAux16_head n n (Nat.le_refl n)

/-- For realistic clock values (`Date.now()` far exceeds 1296) the base-36
representation has at least three characters. -/
theorem natToB36Str_three_le {n : Nat} (h : 1296 ≤ n) :
    3 ≤ (natToB36Str n).data.length :=
  natToBaseAux36_three_le n n (Nat.le_refl n) h

theorem getOrCreateProfile_snd_messages (db : DB) (w pid : String) :
    ((getOrCreateProfile db w pid).2).messages = db.messages := by
  unfold getOrCreateProfile
  split <;> rfl

/-- The row inserted by `saveMessage`, extracted for reasoning. -/
theorem saveMessage_spec (env : SaveEnv) (db : DB)
    (s r mid c : String) (a : ℚ) (tx : Option String) :
    ∃ row : MessageRow,
      (saveMessage env db s r mid c a tx).2.messages = db.messages ++ [row] ∧
      row.message_id =
        (if mid.data.isEmpty || !jsStartsWithChar mid 'm'
            || decide (jsLength mid < 4) then
          jsAppend "m" (jsSliceNeg3 (natToB36Str env.saveNow))
        else mid) ∧
      row.status = .pending := by
  refine ⟨{ id := env.msgRowId
            sender_id := (getOrCreateProfile db s env.senderProfileId).1
            recipient_id := (getOrCreateProfile
              (getOrCreateProfile db s env.senderProfileId).2 r
              env.recipientProfileId).1
            amount := a
            created_at := env.createdAt
            message_id :=
              if mid.data.isEmpty || !jsStartsWithChar mid 'm'
                  || decide (jsLength mid < 4) then
                jsAppend "m" (jsSliceNeg3 (natToB36Str env.saveNow))
              else mid
            content := c
            status := .pending
            transaction_signature := tx
            updated_at := env.createdAt }, ?_, rfl, rfl⟩
  show ((getOrCreateProfile (getOrCreateProfile db s env.senderProfileId).2 r
      env.recipientProfileId).2).messages ++ _ = db.messages ++ _
  rw [getOrCreateProfile_snd_messages, getOrCreateProfile_snd_messages]

/-- Format gate of `updateMessageStatus`: a malformed identifier makes the
call return false immediately, with no state change and no fallback. -/
theorem updateMessageStatus_gate
    (db : DB) (mid : String) (st : MessageStatus) (sig : Option String) (now : Nat)
    (h : jsStartsWithChar mid 'm' = false ∨ jsLength mid < 4) :
    updateMessageStatus db mid st sig now = ⟨false, db, false⟩ := by
  have hcond : (!jsStartsWithChar mid 'm' || decide (jsLength mid < 4)) = true := by
    rcases h with h | h
    · rw [h]
      rfl
    · simp [h]
  unfold updateMessageStatus
  simp [hcond]

/-! ## Claim theorems -/

/-- C7: `deriveMessageEscrowPDA` is deterministic: two calls whose
(sender, recipient, seed) inputs are identical return the same derived
address. -/
theorem deriveMessageEscrowPDA_deterministic
    (s₁ r₁ m₁ s₂ r₂ m₂ : String)
    (hs : s₁ = s₂) (hr : r₁ = r₂) (hm : m₁ = m₂) :
    deriveMessageEscrowPDA s₁ r₁ m₁ = deriveMessageEscrowPDA s₂ r₂ m₂ := by
  subst hs
  subst hr
  subst hm
  rfl

/-- Witness for C7 at the example of the spec: two runs of
`deriveEscrowAddress(A, B, ab12)` agree. -/
theorem deriveMessageEscrowPDA_deterministic_witness :
    ("A" : String) = "A" ∧
    deriveMessageEscrowPDA "A" "B" "ab12" = deriveMessageEscrowPDA "A" "B" "ab12" :=
  ⟨rfl, deriveMessageEscrowPDA_deterministic "A" "B" "ab12" "A" "B" "ab12" rfl rfl rfl⟩

/-- C2: whenever the queried balance is below `amount` plus the 0.01 SOL
fee buffer, `createMessagePayment` fails with the insufficient-funds error
and submits no instruction and performs no database write. -/
theorem createMessagePayment_insufficientFunds
    (env : CreateEnv) (db : DB) (sender recipient content : String)
    (amount b : ℚ)
    (hb : env.balanceResult = .ok b)
    (hlt : b < amount * LAMPORTS_PER_SOL + estimatedFee) :
    createMessagePayment env db sender recipient amount content
      = ⟨.error insufficientFundsMsg, [], db⟩ := by
  have hc : checkSufficientBalance env.balanceResult amount = false := by
    rw [hb]
    simp only [checkSufficientBalance, decide_eq_false_iff_not, not_le]
    exact hlt
  unfold createMessagePayment
  rw [hc]
  rfl

/-- Witness for C2: a 1 SOL payment against a 5-lamport balance fails with
the insufficient-funds error and leaves the world untouched. -/
theorem createMessagePayment_insufficientFunds_witness :
    (CreateEnv.mk (.ok 5) 4096 "abcd1234" (.ok "tx1")
        ⟨46656, "sp1", "rp1", "row1", 7⟩).balanceResult = .ok 5 ∧
    (5 : ℚ) < 1 * LAMPORTS_PER_SOL + estimatedFee ∧
    createMessagePayment
        (CreateEnv.mk (.ok 5) 4096 "abcd1234" (.ok "tx1")
          ⟨46656, "sp1", "rp1", "row1", 7⟩)
        ⟨[], []⟩ "walletA" "walletB" 1 "hello"
      = ⟨.error insufficientFundsMsg, [], ⟨[], []⟩⟩ :=
  ⟨rfl, by norm_num [LAMPORTS_PER_SOL, estimatedFee],
    createMessagePayment_insufficientFunds _ _ _ _ _ _ 5 rfl
      (by norm_num [LAMPORTS_PER_SOL, estimatedFee])⟩

/-- C9: when the balance query itself fails, `checkSufficientBalance`
reports `false`, and `createMessagePayment` fails with the very same
insufficient-funds error as a real shortfall, submitting nothing and
writing nothing. -/
theorem createMessagePayment_balanceError
    (env : CreateEnv) (db : DB) (sender recipient content : String)
    (amount : ℚ) (e : String)
    (hb : env.balanceResult = .error e) :
    checkSufficientBalance env.balanceResult amount = false ∧
    createMessagePayment env db sender recipient amount content
      = ⟨.error insufficientFundsMsg, [], db⟩ := by
  have hc : checkSufficientBalance env.balanceResult amount = false := by
    rw [hb]
    rfl
  refine ⟨hc, ?_⟩
  unfold createMessagePayment
  rw [hc]
  rfl

/-- Witness for C9: a failing balance query produces the
insufficient-funds failure with no side effects. -/
theorem createMessagePayment_balanceError_witness :
    (CreateEnv.mk (.error "network down") 4096 "abcd1234" (.ok "tx1")
        ⟨46656, "sp1", "rp1", "row1", 7⟩).balanceResult = .error "network down" ∧
    (checkSufficientBalance (CreateEnv.mk (.error "network down") 4096 "abcd1234"
          (.ok "tx1") ⟨46656, "sp1", "rp1", "row1", 7⟩).balanceResult 1 = false ∧
      createMessagePayment
          (CreateEnv.mk (.error "network down") 4096 "abcd1234" (.ok "tx1")
            ⟨46656, "sp1", "rp1", "row1", 7⟩)
          ⟨[], []⟩ "walletA" "walletB" 1 "hello"
        = ⟨.error insufficientFundsMsg, [], ⟨[], []⟩⟩) :=
  ⟨rfl, createMessagePayment_balanceError _ _ _ _ _ _ "network down" rfl⟩

/-- C4: a malformed message id (not starting with m, or shorter than 4)
makes `updateMessageStatus` return false at the format gate, leaving the
database unchanged (and in particular never reaching the fallback). -/
theorem updateMessageStatus_malformed
    (db : DB) (mid : String) (st : MessageStatus) (sig : Option String) (now : Nat)
    (h : jsStartsWithChar mid 'm' = false ∨ jsLength mid < 4) :
    updateMessageStatus db mid st sig now = ⟨false, db, false⟩ :=
  updateMessageStatus_gate db mid st sig now h

/-- Witness for C4: the malformed id xx1 is rejected without touching a
database holding one message. -/
theorem updateMessageStatus_malformed_witness :
    (jsStartsWithChar "xx1" 'm' = false ∨ jsLength "xx1" < 4) ∧
    updateMessageStatus
        ⟨[], [⟨"row1", "s1", "r1", 1, 0, "mab1", "hi", .pending, none, 0⟩]⟩
        "xx1" .approved none 5
      = ⟨false, ⟨[], [⟨"row1", "s1", "r1", 1, 0, "mab1", "hi", .pending, none, 0⟩]⟩, false⟩ :=
  ⟨Or.inl (by decide),
    updateMessageStatus_malformed _ "xx1" .approved none 5 (Or.inl (by decide))⟩

/-- C8: the database-id fallback of `updateMessageStatus` runs only for
identifiers that pass the format gate (start with m, length at least 4)
and contain a dash; a standard UUID consists of hex digits and dashes,
never starts with m, and is therefore rejected at the gate with the
fallback never executed. -/
theorem updateMessageStatus_fallback_requires_wellformed
    (db : DB) (mid : String) (st : MessageStatus) (sig : Option String) (now : Nat) :
    ((updateMessageStatus db mid st sig now).fallbackTried = true →
      jsStartsWithChar mid 'm' = true ∧ 4 ≤ jsLength mid ∧
        jsIncludesChar mid '-' = true)
    ∧ ((∀ ch ∈ mid.data, isUuidChar ch = true) →
      updateMessageStatus db mid st sig now = ⟨false, db, false⟩) := by
  constructor
  · intro hf
    by_cases h1 : jsStartsWithChar mid 'm' = true
    case neg =>
      have h1f : jsStartsWithChar mid 'm' = false := by
        cases hx : jsStartsWithChar mid 'm'
        · rfl
        · exact absurd hx h1
      rw [updateMessageStatus_gate db mid st sig now (Or.inl h1f)] at hf
      simp at hf
    case pos =>
      by_cases h2 : jsLength mid < 4
      case pos =>
        rw [updateMessageStatus_gate db mid st sig now (Or.inr h2)] at hf
        simp at hf
      case neg =>
        refine ⟨h1, by omega, ?_⟩
        have hcond : (!jsStartsWithChar mid 'm' || decide (jsLength mid < 4)) = false := by
          simp [h1, h2]
        unfold updateMessageStatus at hf
        rw [hcond] at hf
        simp only [Bool.false_eq_true, if_false] at hf
        cases hsing : single? (db.messages.filter (fun m => m.message_id == mid)) with
        | some m0 =>
          rw [hsing] at hf
          simp at hf
        | none =>
          rw [hsing] at hf
          by_cases hinc : jsIncludesChar mid '-' = true
          · exact hinc
          · have hincf : jsIncludesChar mid '-' = false := by
              cases hx : jsIncludesChar mid '-'
              · rfl
              · exact absurd hx hinc
            rw [hincf] at hf
            simp at hf
  · intro hu
    have hs : jsStartsWithChar mid 'm' = false := by
      cases hd : mid.data with
      | nil => simp [jsStartsWithChar, hd]
      | cons ch t =>
        have hch := hu ch (by rw [hd]; exact List.mem_cons_self ch t)
        have hne : ch ≠ 'm' := by
          intro hcm
          rw [hcm] at hch
          exact absurd hch (by decide)
        simp [jsStartsWithChar, hd, hne]
    exact updateMessageStatus_gate db mid st sig now (Or.inl hs)

/-- Witness for C8: the well-formed dashed id m1-5 reaches the fallback on
an empty database, while a concrete standard UUID is rejected at the gate
with the fallback untouched. -/
theorem updateMessageStatus_fallback_requires_wellformed_witness :
    (jsStartsWithChar "m1-5" 'm' = true ∧ 4 ≤ jsLength "m1-5" ∧
      jsIncludesChar "m1-5" '-' = true) ∧
    updateMessageStatus ⟨[], []⟩ "123e4567-e89b-12d3-a456-426614174000"
        .approved none 0
      = ⟨false, ⟨[], []⟩, false⟩ :=
  ⟨(updateMessageStatus_fallback_requires_wellformed ⟨[], []⟩ "m1-5" .approved
      none 0).1 (by decide),
   (updateMessageStatus_fallback_requires_wellformed ⟨[], []⟩
      "123e4567-e89b-12d3-a456-426614174000" .approved none 0).2 (by decide)⟩

/-- C5: fetching messages for a wallet address with no profile returns the
empty result and inserts exactly one new profile with that wallet
address. -/
theorem fetchMessages_creates_profile
    (db : DB) (w : String) (ft : FetchType) (newId : String)
    (h : db.profiles.filter (fun p => p.wallet_address == w) = []) :
    fetchMessages db (some w) ft newId
      = ([], { db with profiles := db.profiles ++
          [{ id := newId
             wallet_address := w
             username := jsAppend "user_" (jsSlice0 w 8)
             avatar_url := none }] })
    ∧ (((fetchMessages db (some w) ft newId).2).profiles.filter
        (fun p => p.wallet_address == w)).length = 1 := by
  have hs : single? (db.profiles.filter (fun p => p.wallet_address == w)) = none := by
    rw [h]
    rfl
  have h1 : fetchMessages db (some w) ft newId
      = ([], { db with profiles := db.profiles ++
          [{ id := newId
             wallet_address := w
             username := jsAppend "user_" (jsSlice0 w 8)
             avatar_url := none }] }) := by
    unfold fetchMessages
    simp [hs]
  refine ⟨h1, ?_⟩
  rw [h1]
  simp [List.filter_append, h]

/-- Witness for C5: an empty database gains exactly the one new profile. -/
theorem fetchMessages_creates_profile_witness :
    (⟨[], []⟩ : DB).profiles.filter (fun p => p.wallet_address == "w1") = [] ∧
    fetchMessages ⟨[], []⟩ (some "w1") .all "uuid1"
      = ([], ⟨[{ id := "uuid1"
                 wallet_address := "w1"
                 username := jsAppend "user_" (jsSlice0 "w1" 8)
                 avatar_url := none }], []⟩) :=
  ⟨rfl, (fetchMessages_creates_profile ⟨[], []⟩ "w1" .all "uuid1" rfl).1⟩

/-- C3: for every malformed input id (empty, wrong leading character, or
too short), the row persisted by `saveMessage` carries a regenerated
`message_id` that starts with m and has length at least 4 (for every clock
value with at least three base-36 digits, which every real `Date.now()`
has). -/
theorem saveMessage_regenerates_malformed
    (env : SaveEnv) (db : DB) (s r mid c : String) (a : ℚ) (tx : Option String)
    (hmal : mid.data = [] ∨ jsStartsWithChar mid 'm' = false ∨ jsLength mid < 4)
    (hnow : 1296 ≤ env.saveNow) :
    ∃ row : MessageRow,
      (saveMessage env db s r mid c a tx).2.messages = db.messages ++ [row] ∧
      jsStartsWithChar row.message_id 'm' = true ∧
      4 ≤ jsLength row.message_id := by
  obtain ⟨row, hmsgs, hmid, _⟩ := saveMessage_spec env db s r mid c a tx
  have hcond : (mid.data.isEmpty || !jsStartsWithChar mid 'm'
      || decide (jsLength mid < 4)) = true := by
    rcases hmal with h | h | h
    · simp [h]
    · simp [h]
    · simp [h]
  rw [hcond] at hmid
  simp only [if_true] at hmid
  have hdata : row.message_id.data
      = 'm' :: (jsSliceNeg3 (natToB36Str env.saveNow)).data := by
    rw [hmid]
    rfl
  refine ⟨row, hmsgs, ?_, ?_⟩
  · simp [jsStartsWithChar, hdata]
  · have hlen3 := natToB36Str_three_le hnow
    simp only [jsLength, hdata, List.length_cons, jsSliceNeg3, List.length_drop]
    omega

/-- Witness for C3: the malformed id xx1 from the testable-properties
section is regenerated into the well-formed m000. -/
theorem saveMessage_regenerates_malformed_witness :
    (("xx1" : String).data = [] ∨ jsStartsWithChar "xx1" 'm' = false ∨
      jsLength "xx1" < 4) ∧
    1296 ≤ (46656 : Nat) ∧
    (∃ row : MessageRow,
      (saveMessage ⟨46656, "sp1", "rp1", "row1", 9⟩ ⟨[], []⟩
          "wA" "wB" "xx1" "hello" 1 (some "tx1")).2.messages
        = (⟨[], []⟩ : DB).messages ++ [row] ∧
      jsStartsWithChar row.message_id 'm' = true ∧
      4 ≤ jsLength row.message_id) :=
  ⟨Or.inr (Or.inl (by decide)), by decide,
    saveMessage_regenerates_malformed ⟨46656, "sp1", "rp1", "row1", 9⟩ ⟨[], []⟩
      "wA" "wB" "xx1" "hello" 1 (some "tx1")
      (Or.inr (Or.inl (by decide))) (by decide)⟩

/-- C10: for a wallet with an existing profile, `fetchMessages` returns a
permutation of the formatted matched messages that is sorted by
`created_at` in descending order (newest first), and leaves the database
unchanged. -/
theorem fetchMessages_sorted_newestFirst
    (db : DB) (w : String) (ft : FetchType) (newId : String) (p : ProfileRow)
    (h : single? (db.profiles.filter (fun q => q.wallet_address == w)) = some p) :
    List.Sorted newestFirst (fetchMessages db (some w) ft newId).1 ∧
    List.Perm (fetchMessages db (some w) ft newId).1
      ((matchedMessages db p.id ft).map (formatMessage db)) ∧
    (fetchMessages db (some w) ft newId).2 = db := by
  have h1 : fetchMessages db (some w) ft newId
      = (List.insertionSort newestFirst
          ((matchedMessages db p.id ft).map (formatMessage db)), db) := by
    unfold fetchMessages
    simp [h]
  rw [h1]
  exact ⟨List.sorted_insertionSort newestFirst _,
    List.perm_insertionSort newestFirst _, rfl⟩

/-- Witness for C10 on a two-message database whose rows are stored oldest
first. -/
theorem fetchMessages_sorted_newestFirst_witness :
    single? ((DB.mk [ProfileRow.mk "p1" "w1" "u1" none]
        [MessageRow.mk "rowA" "p2" "p1" 1 10 "maaa" "first" .pending none 10,
         MessageRow.mk "rowB" "p2" "p1" 2 20 "mbbb" "second" .pending none 20]).profiles.filter
          (fun q => q.wallet_address == "w1"))
      = some (ProfileRow.mk "p1" "w1" "u1" none) ∧
    List.Sorted newestFirst
      (fetchMessages (DB.mk [ProfileRow.mk "p1" "w1" "u1" none]
        [MessageRow.mk "rowA" "p2" "p1" 1 10 "maaa" "first" .pending none 10,
         MessageRow.mk "rowB" "p2" "p1" 2 20 "mbbb" "second" .pending none 20])
        (some "w1") .received "unused").1 :=
  ⟨by decide,
    (fetchMessages_sorted_newestFirst _ "w1" .received "unused"
      (ProfileRow.mk "p1" "w1" "u1" none) (by decide)).1⟩

/-- Counterexample for C6: after a save and a successful approval, a
second `updateMessageStatus` call succeeds and overwrites approved with
rejected — a transition out of approved, which the claim rules out. -/
theorem updateMessageStatus_double_transition :
    ((updateMessageStatus
        (saveMessage ⟨46656, "sp1", "rp1", "row1", 0⟩ ⟨[], []⟩
          "wA" "wB" "mab1" "hi" 1 (some "t0")).2
        "mab1" .approved (some "t1") 1).db.messages.map (fun m => m.status)
      = [.approved])
    ∧ ((updateMessageStatus
        (updateMessageStatus
          (saveMessage ⟨46656, "sp1", "rp1", "row1", 0⟩ ⟨[], []⟩
            "wA" "wB" "mab1" "hi" 1 (some "t0")).2
          "mab1" .approved (some "t1") 1).db
        "mab1" .rejected (some "t2") 2).ok = true)
    ∧ ((updateMessageStatus
        (updateMessageStatus
          (saveMessage ⟨46656, "sp1", "rp1", "row1", 0⟩ ⟨[], []⟩
            "wA" "wB" "mab1" "hi" 1 (some "t0")).2
          "mab1" .approved (some "t1") 1).db
        "mab1" .rejected (some "t2") 2).db.messages.map (fun m => m.status)
      = [.rejected]) := by decide

/-- C6 as amended: every row persisted by `saveMessage` has status
pending, and a successful `updateMessageStatus` overwrites the status of
the matched row with the requested value unconditionally — the current
status is never inspected, so a single pending → approved/rejected
transition is not enforced and repeated calls can transition a record out
of approved or rejected. -/
theorem saveMessage_pending_update_overwrites
    (env : SaveEnv) (db : DB) (s r mid c : String) (a : ℚ) (tx : Option String) :
    (∃ row : MessageRow,
      (saveMessage env db s r mid c a tx).2.messages = db.messages ++ [row] ∧
      row.status = .pending)
    ∧ ∀ (db₂ : DB) (mid₂ : String) (st : MessageStatus) (sig : Option String)
        (now : Nat) (m₀ : MessageRow),
        jsStartsWithChar mid₂ 'm' = true → 4 ≤ jsLength mid₂ →
        single? (db₂.messages.filter (fun m => m.message_id == mid₂)) = some m₀ →
        updateMessageStatus db₂ mid₂ st sig now
          = ⟨true,
              { db₂ with messages := db₂.messages.map (fun m =>
                  if m.message_id == mid₂ then applyStatus m st sig now else m) },
              false⟩ := by
  constructor
  · obtain ⟨row, hm, _, hst⟩ := saveMessage_spec env db s r mid c a tx
    exact ⟨row, hm, hst⟩
  · intro db₂ mid₂ st sig now m₀ h1 h2 hsing
    have h3 : ¬ (jsLength mid₂ < 4) := by omega
    have hcond : (!jsStartsWithChar mid₂ 'm' || decide (jsLength mid₂ < 4)) = false := by
      simp [h1, h3]
    unfold updateMessageStatus
    rw [hcond]
    simp only [Bool.false_eq_true, if_false]
    rw [hsing]

/-- Witness for the amended C6: a concrete save yields a pending row, and
a concrete update on an approved row overwrites it. -/
theorem saveMessage_pending_update_overwrites_witness :
    ((∃ row : MessageRow,
      (saveMessage ⟨46656, "sp1", "rp1", "row1", 0⟩ ⟨[], []⟩
          "wA" "wB" "mab1" "hi" 1 (some "t0")).2.messages
        = (⟨[], []⟩ : DB).messages ++ [row] ∧ row.status = .pending))
    ∧ updateMessageStatus
        (DB.mk [] [MessageRow.mk "row1" "sp1" "rp1" 1 0 "mab1" "hi"
          .approved (some "t1") 1])
        "mab1" .rejected (some "t2") 2
      = ⟨true,
          { DB.mk [] [MessageRow.mk "row1" "sp1" "rp1" 1 0 "mab1" "hi"
              .approved (some "t1") 1] with
            messages := (DB.mk [] [MessageRow.mk "row1" "sp1" "rp1" 1 0 "mab1" "hi"
              .approved (some "t1") 1]).messages.map (fun m =>
                if m.message_id == "mab1" then
                  applyStatus m .rejected (some "t2") 2
                else m) },
          false⟩ :=
  ⟨(saveMessage_pending_update_overwrites ⟨46656, "sp1", "rp1", "row1", 0⟩
      ⟨[], []⟩ "wA" "wB" "mab1" "hi" 1 (some "t0")).1,
   (saveMessage_pending_update_overwrites ⟨46656, "sp1", "rp1", "row1", 0⟩
      ⟨[], []⟩ "wA" "wB" "mab1" "hi" 1 (some "t0")).2
     (DB.mk [] [MessageRow.mk "row1" "sp1" "rp1" 1 0 "mab1" "hi"
       .approved (some "t1") 1])
     "mab1" .rejected (some "t2") 2
     (MessageRow.mk "row1" "sp1" "rp1" 1 0 "mab1" "hi" .approved (some "t1") 1)
     (by decide) (by decide) (by decide)⟩

/-- C1 (refuted by the code; this theorem exhibits the divergence): on the
success path of `createMessagePayment` the escrow address is derived from
the first four characters of the generated id
`Date.now().toString(16) + dash + random`, whose leading character is a
hex digit and therefore never m; `saveMessage` consequently regenerates
the persisted `message_id` to start with m, so a later
`approveMessagePayment` called with the persisted `message_id` and the
original (sender, recipient) pairing derives an escrow address that
differs from the one used at creation. -/
theorem createMessagePayment_escrow_roundTrip_broken
    (env : CreateEnv) (aenv : ApproveEnv) (db : DB)
    (sender recipient content : String) (amount b : ℚ) (tx : String)
    (hb : env.balanceResult = .ok b)
    (hsuff : amount * LAMPORTS_PER_SOL + estimatedFee ≤ b)
    (hrpc : env.rpcResult = .ok tx) :
    ∃ row : MessageRow,
      (createMessagePayment env db sender recipient amount content).db.messages
        = db.messages ++ [row] ∧
      (createMessagePayment env db sender recipient amount content).submitted
        = [ChainInstruction.create sender recipient
            (deriveMessageEscrowPDA sender recipient
              (jsSlice0 (jsAppend (natToHexStr env.now) (jsAppend "-" env.rand)) 4))
            (amount * LAMPORTS_PER_SOL)
            (jsSlice0 (jsAppend (natToHexStr env.now) (jsAppend "-" env.rand)) 4)] ∧
      (approveMessagePayment aenv
          (createMessagePayment env db sender recipient amount content).db
          recipient sender row.message_id).submitted
        = [ChainInstruction.approve sender recipient
            (deriveMessageEscrowPDA sender recipient (jsSlice0 row.message_id 4))] ∧
      deriveMessageEscrowPDA sender recipient (jsSlice0 row.message_id 4)
        ≠ deriveMessageEscrowPDA sender recipient
            (jsSlice0 (jsAppend (natToHexStr env.now) (jsAppend "-" env.rand)) 4) := by
  have hchk : checkSufficientBalance env.balanceResult amount = true := by
    rw [hb]
    simp only [checkSufficientBalance, decide_eq_true_eq]
    exact hsuff
  have hout : createMessagePayment env db sender recipient amount content
      = ⟨.ok tx,
          [ChainInstruction.create sender recipient
            (deriveMessageEscrowPDA sender recipient
              (jsSlice0 (jsAppend (natToHexStr env.now) (jsAppend "-" env.rand)) 4))
            (amount * LAMPORTS_PER_SOL)
            (jsSlice0 (jsAppend (natToHexStr env.now) (jsAppend "-" env.rand)) 4)],
          (saveMessage env.saveEnv db sender recipient
            (jsAppend (natToHexStr env.now) (jsAppend "-" env.rand))
            content amount (some tx)).2⟩ := by
    unfold createMessagePayment
    rw [hchk, hrpc]
    rfl
  obtain ⟨c, l, hcl, hcm⟩ := natToHexStr_head env.now
  have hdataC : (jsAppend (natToHexStr env.now) (jsAppend "-" env.rand)).data
      = c :: (l ++ ('-' :: env.rand.data)) := by
    show (natToHexStr env.now).data ++ (jsAppend "-" env.rand).data = _
    rw [hcl]
    rfl
  have hstart : jsStartsWithChar
      (jsAppend (natToHexStr env.now) (jsAppend "-" env.rand)) 'm' = false := by
    simp [jsStartsWithChar, hdataC, hcm]
  obtain ⟨row, hmsgs, hmid, _⟩ := saveMessage_spec env.saveEnv db sender recipient
    (jsAppend (natToHexStr env.now) (jsAppend "-" env.rand)) content amount (some tx)
  have hcond : ((jsAppend (natToHexStr env.now) (jsAppend "-" env.rand)).data.isEmpty
      || !jsStartsWithChar (jsAppend (natToHexStr env.now) (jsAppend "-" env.rand)) 'm'
      || decide (jsLength (jsAppend (natToHexStr env.now) (jsAppend "-" env.rand)) < 4))
      = true := by
    simp [hstart]
  rw [hcond] at hmid
  simp only [if_true] at hmid
  have happrove : ∀ (d : DB) (midX : String),
      (approveMessagePayment aenv d recipient sender midX).submitted
        = [ChainInstruction.approve sender recipient
            (deriveMessageEscrowPDA sender recipient (jsSlice0 midX 4))] := by
    intro d midX
    unfold approveMessagePayment
    cases hres : aenv.rpcResult with
    | error e => rfl
    | ok t => rfl
  refine ⟨row, ?_, ?_, ?_, ?_⟩
  · rw [hout]
    exact hmsgs
  · rw [hout]
  · rw [hout]
    exact happrove _ _
  · intro heq
    have hseed : jsSlice0 row.message_id 4
        = jsSlice0 (jsAppend (natToHexStr env.now) (jsAppend "-" env.rand)) 4 :=
      congrArg PDAInput.seed heq
    have hA : (jsSlice0 row.message_id 4).data
        = 'm' :: ((jsSliceNeg3 (natToB36Str env.saveEnv.saveNow)).data.take 3) := by
      rw [hmid]
      rfl
    have hC : (jsSlice0 (jsAppend (natToHexStr env.now) (jsAppend "-" env.rand)) 4).data
        = c :: ((l ++ ('-' :: env.rand.data)).take 3) := by
      show (jsAppend (natToHexStr env.now) (jsAppend "-" env.rand)).data.take 4 = _
      rw [hdataC]
      rfl
    have hlists : 'm' :: ((jsSliceNeg3 (natToB36Str env.saveEnv.saveNow)).data.take 3)
        = c :: ((l ++ ('-' :: env.rand.data)).take 3) := by
      rw [← hA, ← hC, hseed]
    have : 'm' = c := by
      injection hlists with h1 _
    exact hcm this.symm

/-- Witness for C1: with clock 4096 the generated id is 1000-abcd1234
(creation seed 1000), while the persisted id is regenerated to m000
(approval seed m000), so the two derived escrow addresses differ. -/
theorem createMessagePayment_escrow_roundTrip_broken_witness :
    (CreateEnv.mk (.ok 2000000000) 4096 "abcd1234" (.ok "tx1")
        ⟨46656, "sp1", "rp1", "row1", 7⟩).balanceResult = .ok 2000000000 ∧
    (1 : ℚ) * LAMPORTS_PER_SOL + estimatedFee ≤ 2000000000 ∧
    (CreateEnv.mk (.ok 2000000000) 4096 "abcd1234" (.ok "tx1")
        ⟨46656, "sp1", "rp1", "row1", 7⟩).rpcResult = .ok "tx1" ∧
    (∃ row : MessageRow,
      (createMessagePayment
          (CreateEnv.mk (.ok 2000000000) 4096 "abcd1234" (.ok "tx1")
            ⟨46656, "sp1", "rp1", "row1", 7⟩)
          ⟨[], []⟩ "wA" "wB" 1 "hello").db.messages
        = (⟨[], []⟩ : DB).messages ++ [row] ∧
      (createMessagePayment
          (CreateEnv.mk (.ok 2000000000) 4096 "abcd1234" (.ok "tx1")
            ⟨46656, "sp1", "rp1", "row1", 7⟩)
          ⟨[], []⟩ "wA" "wB" 1 "hello").submitted
        = [ChainInstruction.create "wA" "wB"
            (deriveMessageEscrowPDA "wA" "wB"
              (jsSlice0 (jsAppend (natToHexStr 4096) (jsAppend "-" "abcd1234")) 4))
            ((1 : ℚ) * LAMPORTS_PER_SOL)
            (jsSlice0 (jsAppend (natToHexStr 4096) (jsAppend "-" "abcd1234")) 4)] ∧
      (approveMessagePayment ⟨.ok "tx2", 9⟩
          (createMessagePayment
            (CreateEnv.mk (.ok 2000000000) 4096 "abcd1234" (.ok "tx1")
              ⟨46656, "sp1", "rp1", "row1", 7⟩)
            ⟨[], []⟩ "wA" "wB" 1 "hello").db
          "wB" "wA" row.message_id).submitted
        = [ChainInstruction.approve "wA" "wB"
            (deriveMessageEscrowPDA "wA" "wB" (jsSlice0 row.message_id 4))] ∧
      deriveMessageEscrowPDA "wA" "wB" (jsSlice0 row.message_id 4)
        ≠ deriveMessageEscrowPDA "wA" "wB"
            (jsSlice0 (jsAppend (natToHexStr 4096) (jsAppend "-" "abcd1234")) 4)) :=
  ⟨rfl, by norm_num [LAMPORTS_PER_SOL, estimatedFee], rfl,
    createMessagePayment_escrow_roundTrip_broken
      (CreateEnv.mk (.ok 2000000000) 4096 "abcd1234" (.ok "tx1")
        ⟨46656, "sp1", "rp1", "row1", 7⟩)
      ⟨.ok "tx2", 9⟩ ⟨[], []⟩ "wA" "wB" "hello" 1 2000000000 "tx1"
      rfl (by norm_num [LAMPORTS_PER_SOL, estimatedFee]) rfl⟩
